import Mathlib

/-!
Verification of the benten CWL-editor model against its specification.

The development shallowly embeds the code of benten/models/workflow.py,
benten/gui/view/commandwidget.py and benten/gui/bentenmainwidget.py.
YAML values with line tracking (the listormap / lineloader library, an
external dependency of the repository) are modelled by the inductive Yv.
Python exceptions are modelled by the Except monad: constructor Err.wfconn
stands for WFConnectionError (caught by the connection-derivation loops),
Err.py stands for every other Python exception (ValueError, KeyError,
TypeError, AttributeError), which no handler in the modelled code catches.
-/

/-- A single-quote character as a string (used when embedding Python
format strings that contain quotes). -/
def pyQuote : String := String.singleton (Char.ofNat 39)

/-- Line-tracked YAML value, the representation produced by the line-loading
parser (modelled from the spec, section 4.1: every mapping and sequence node
carries its start and end line; a sequence node knows whether it is a plain
list of scalars). A plain Python dict and a CWLMap are conflated into vmap:
at every site the embedded code iterates a plain dict it is the empty default
dict, where the two behave identically. -/
inductive Yv where
  | vnull : Yv
  | vstr : String → Yv
  | vmap : List (String × Yv) → Nat → Nat → Yv
  | vlist : List Yv → Bool → Nat → Nat → Yv

/-- Error type for the embedding of Python exceptions. -/
inductive Err where
  | wfconn : String → Err
  | py : String → Err
deriving DecidableEq

/-- Line range of a line-tracked node (none for scalars, which have no
start_line attribute). -/
def lineOf : Yv → Option (Nat × Nat)
  | Yv.vmap _ s e => some (s, e)
  | Yv.vlist _ _ s e => some (s, e)
  | _ => none

/-- One element of a list-form list-or-map section: the element id is
read out of the element itself (the Python expression l of bracket id in
iter_lom), a KeyError escaping when the element has no id (the embedding
restricts the id to a string, as CWL identifiers are). -/
def lomElemId : Yv → Except Err (String × Yv)
  | Yv.vmap es s e =>
      match List.lookup "id" es with
      | some (Yv.vstr k) => Except.ok (k, Yv.vmap es s e)
      | some _ => Except.error (Err.py "TypeError: id is not a string")
      | none => Except.error (Err.py "KeyError: id")
  | _ => Except.error (Err.py "TypeError: list element has no id")

/-- The (id, whole element) pairs of a list written in sequence form, in
source order, propagating the first failure (the loop of iter_lom over a
list). -/
def lomElems : List Yv → Except Err (List (String × Yv))
  | [] => Except.ok []
  | l :: ls => do
      let p ← lomElemId l
      let rest ← lomElems ls
      Except.ok (p :: rest)

/-- Embeds iter_lom of workflow.py (lines 42-53): a dict yields its
(key, value) pairs; a list yields (element id, whole element) pairs;
other values fall into the generic pair-iteration branch, which raises
for scalars. Line-tracked map and list nodes iterate the same way
(modelled from the spec, section 4.1: iteration over a list-or-map node
yields (id, value) pairs uniformly). -/
def iter_lom : Yv → Except Err (List (String × Yv))
  | Yv.vmap es _ _ => Except.ok es
  | Yv.vlist items _ _ _ => lomElems items
  | Yv.vnull => Except.error (Err.py "TypeError: NoneType object is not iterable")
  | Yv.vstr _ => Except.error (Err.py "ValueError: not enough values to unpack")

/-- Embeds iter_scalar_or_list of workflow.py (lines 56-60): a CWLList
yields its elements, anything else is wrapped in a singleton list. -/
def iter_scalar_or_list : Yv → List Yv
  | Yv.vlist items _ _ _ => items
  | v => [v]

/-- Substring test on character lists (needle occurs in haystack). -/
def listSubstr (needle : List Char) : List Char → Bool
  | [] => List.isPrefixOf needle []
  | c :: t => List.isPrefixOf needle (c :: t) || listSubstr needle t

/-- Substring test, embedding the Python expression needle in haystack
for strings. -/
def strContainsSub (hay needle : String) : Bool :=
  listSubstr needle.data hay.data

/-- Splitting a character list at every occurrence of a separator,
keeping empty pieces (the semantics of the Python str.split method with
an explicit separator). -/
def splitOnCharAux (sep : Char) : List Char → List Char → List String
  | [], cur => [String.mk cur.reverse]
  | x :: xs, cur =>
      if x == sep then String.mk cur.reverse :: splitOnCharAux sep xs []
      else splitOnCharAux sep xs (x :: cur)

/-- Embeds the Python expression s.split(sep) for a one-character
separator. -/
def pySplit (sep : Char) (s : String) : List String :=
  splitOnCharAux sep s.data []

/-- Membership of a character in a string (the Python expression c in s
for a one-character c). -/
def strContainsChar (s : String) (c : Char) : Bool :=
  s.data.contains c

/-- Embeds the Python membership test key in node. For a dict or
line-tracked map this is a key test; for a string it is the Python
substring test; for a line-tracked list it is membership among the
list-or-map identifiers (modelled from the spec, section 4.1); for None
it raises TypeError. -/
def yvContains (v : Yv) (key : String) : Except Err Bool :=
  match v with
  | Yv.vmap es _ _ => Except.ok (es.any fun kv => kv.1 == key)
  | Yv.vstr s => Except.ok (strContainsSub s key)
  | Yv.vlist _ _ _ _ => do
      let pairs ← iter_lom v
      Except.ok (pairs.any fun kv => kv.1 == key)
  | Yv.vnull => Except.error (Err.py "TypeError: argument of type NoneType is not iterable")

/-- Embeds the Python indexing expression node[key]: KeyError when a map
misses the key, TypeError on scalars; id-keyed lookup on line-tracked
lists (modelled from the spec, section 4.1). -/
def getItem (v : Yv) (key : String) : Except Err Yv :=
  match v with
  | Yv.vmap es _ _ =>
      match List.lookup key es with
      | some x => Except.ok x
      | none => Except.error (Err.py ("KeyError: " ++ key))
  | Yv.vlist _ _ _ _ => do
      let pairs ← iter_lom v
      match List.lookup key pairs with
      | some x => Except.ok x
      | none => Except.error (Err.py ("KeyError: " ++ key))
  | Yv.vstr _ => Except.error (Err.py "TypeError: string indices must be integers")
  | Yv.vnull => Except.error (Err.py "TypeError: NoneType object is not subscriptable")

/-- Embeds the Python expression node.get(key, the empty dict), as used on
sub-process dictionaries: defined on dicts only, AttributeError otherwise. -/
def dictGetD (v : Yv) (key : String) : Except Err Yv :=
  match v with
  | Yv.vmap es _ _ => Except.ok ((List.lookup key es).getD (Yv.vmap [] 0 0))
  | _ => Except.error (Err.py "AttributeError: object has no attribute get")

/-- Embeds class Port of workflow.py (lines 65-78). -/
structure Port where
  node_id : Option String
  port_id : String
  line : Option (Nat × Nat) := none
deriving DecidableEq

/-- Embeds Port eq (workflow.py lines 71-72): equality compares node_id
and port_id only, never the line range. -/
def Port.eq (a b : Port) : Bool :=
  a.node_id == b.node_id && a.port_id == b.port_id

/-- Embeds the sub-workflow reference classes InvalidSub, InlineSub and
ExternalSub of workflow.py (lines 81-93) as one closed sum. The file-not-
found path of Step.from_doc assigns the InvalidSub class object itself
rather than an instance; per the spec (section 9) the two are treated as
the same Invalid value. -/
inductive SubWorkflow where
  | invalidSub : SubWorkflow
  | inlineSub : String → List String → SubWorkflow
  | externalSub : String → SubWorkflow
deriving DecidableEq

/-- Embeds class Step of workflow.py (lines 96-108). -/
structure Step where
  id : String
  line : Nat × Nat
  available_sinks : List (String × Port)
  available_sources : List (String × Port)
  sub_workflow : SubWorkflow
deriving DecidableEq

/-- Embeds the Python repr of a Step (workflow.py lines 107-108):
odict_keys of the sink ids, an arrow, the id, an arrow, odict_keys of the
source ids. The connection-derivation problem strings interpolate a Step
through this repr. -/
def Step.reprStr (s : Step) : String :=
  let keys := fun (l : List (String × Port)) =>
    "odict_keys([" ++ String.intercalate ", " (l.map fun kv => pyQuote ++ kv.1 ++ pyQuote) ++ "])"
  keys s.available_sinks ++ "->" ++ s.id ++ "->" ++ keys s.available_sources

/-- Embeds class Connection of workflow.py (lines 149-159). -/
structure Connection where
  src : Port
  dst : Port
  line : Option (Nat × Nat)
deriving DecidableEq

/-- Embeds Connection eq (workflow.py lines 155-156). -/
def Connection.eq (a b : Connection) : Bool :=
  Port.eq a.src b.src && Port.eq a.dst b.dst

/-- Embeds class CwlDoc as consumed by the workflow model: the parsed
line-tracked dictionary, the resolved path of the document, the directory
of that path (root.parent in the Python code) and the inline path (the
empty list standing for None). The wrapper itself lives in
benten/editing/cwldoc.py, which only these fields of are consumed here. -/
structure CwlDoc where
  cwl_dict : Yv
  path : String
  parentDir : String
  inline_path : List String

/-- Embeds pathlib.Path(parent, rel).resolve() for the plain relative
paths the model passes it (no dot segments, rel not absolute): the
resolved path is the parent directory, a separator, and the relative
path. -/
def resolvePath (parentDir rel : String) : String :=
  parentDir ++ "/" ++ rel

/-- Embeds pathlib.PurePosixPath.as_uri for an absolute path. -/
def asUri (p : String) : String := "file://" ++ p

/-- Embeds the sink and source comprehensions of Step.from_doc
(workflow.py lines 136-144): one Port per (id, value) pair of the inputs
and outputs sections of the resolved sub-process, both sections looked up
with an empty-dict default. -/
def stepInterface (step_id : String) (sub_process : Yv) :
    Except Err (List (String × Port) × List (String × Port)) := do
  let sinkPairs ← iter_lom (← dictGetD sub_process "inputs")
  let sourcePairs ← iter_lom (← dictGetD sub_process "outputs")
  Except.ok (sinkPairs.map fun kv => (kv.1, Port.mk (some step_id) kv.1 none),
             sourcePairs.map fun kv => (kv.1, Port.mk (some step_id) kv.1 none))

/-- Embeds Step.from_doc of workflow.py (lines 110-146). The parameter fs
stands for the composition of opening, reading and parse_cwl_to_dict on a
resolved path: none models FileNotFoundError, some the parsed
sub-process. Returns the constructed Step together with the list of
problem strings the call appends to wf_error_list. -/
def Step.from_doc (fs : String → Option Yv) (cwl_doc : CwlDoc) (step_id : String)
    (line : Nat × Nat) : Except Err (Step × List String) := do
  let stepsSec ← getItem cwl_doc.cwl_dict "steps"
  let step_doc ← getItem stepsSec step_id
  match step_doc with
  | Yv.vnull =>
      Except.ok ({ id := step_id, line := line, available_sinks := [],
                   available_sources := [], sub_workflow := SubWorkflow.invalidSub },
                 ["step " ++ step_id ++ " has no run field"])
  | _ => do
    let hasRun ← yvContains step_doc "run"
    if !hasRun then
      Except.ok ({ id := step_id, line := line, available_sinks := [],
                   available_sources := [], sub_workflow := SubWorkflow.invalidSub },
                 ["step " ++ step_id ++ " has no run field"])
    else do
      let runVal ← getItem step_doc "run"
      let resolved ←
        match runVal with
        | Yv.vstr p =>
            let sub_p_path := resolvePath cwl_doc.parentDir p
            match fs sub_p_path with
            | some sp =>
                Except.ok (sp, SubWorkflow.externalSub sub_p_path, ([] : List String))
            | none =>
                Except.ok (Yv.vmap [] 0 0, SubWorkflow.invalidSub,
                  ["Could not find sub workflow: " ++ p ++
                   " (resolved to " ++ asUri sub_p_path ++ ")"])
        | _ =>
            Except.ok (runVal,
              SubWorkflow.inlineSub cwl_doc.path (cwl_doc.inline_path ++ [step_id]),
              ([] : List String))
      let ports ← stepInterface step_id resolved.1
      Except.ok ({ id := step_id, line := line,
                   available_sinks := ports.1,
                   available_sources := ports.2,
                   sub_workflow := resolved.2.1 },
                 resolved.2.2)

/-- Embeds class Workflow of workflow.py (lines 166-196): the parsed
graph together with the accumulated problem strings. -/
structure Workflow where
  inputs : List (String × Port)
  outputs : List (String × Port)
  steps : List (String × Step)
  connections : List Connection
  problems_with_wf : List String
  section_lines : List (String × (Nat × Nat))

/-- Embeds Workflow parse_ports (workflow.py lines 198-215): one Port per
(id, value) pair of the section, the line range taken from the value node
when it is a map or list node, else from the section node itself. -/
def parse_ports (obj : Yv) : Except Err (List (String × Port)) := do
  let pairs ← iter_lom obj
  Except.ok (pairs.map fun kv =>
    (kv.1, Port.mk none kv.1 (match lineOf kv.2 with
                              | some l => some l
                              | none => lineOf obj)))

/-- Embeds Workflow get_step_source (workflow.py lines 228-237). The
Python code unpacks src.split into exactly two names, so a source string
with more than one slash raises an uncaught ValueError (modelled as
Err.py); a missing step or port raises WFConnectionError (Err.wfconn). -/
def getStepSource (steps : List (String × Step)) (src : String) : Except Err Port :=
  match pySplit '/' src with
  | [src_step_id, src_port_id] =>
      match List.lookup src_step_id steps with
      | none => Except.error (Err.wfconn ("No such source step " ++ src_step_id))
      | some st =>
          match List.lookup src_port_id st.available_sources with
          | none => Except.error (Err.wfconn
          ("No such source port " ++ src_step_id ++ "." ++ src_port_id))
          | some p => Except.ok p
  | [_] => Except.error (Err.py "ValueError: not enough values to unpack (expected 2, got 1)")
  | _ => Except.error (Err.py "ValueError: too many values to unpack (expected 2)")

/-- Embeds Workflow get_source (workflow.py lines 217-226): None or the
empty string raise the no-source WFConnectionError; a string with a slash
resolves against the steps; any other string resolves against the
workflow inputs. A non-scalar source node is never a key of the inputs
dict (line-tracked nodes hash by identity), so the lookup fails. -/
def getSource (inputs : List (String × Port)) (steps : List (String × Step))
    (src : Yv) : Except Err Port :=
  match src with
  | Yv.vnull => Except.error (Err.wfconn "No source specified")
  | Yv.vstr s =>
      if s == "" then Except.error (Err.wfconn "No source specified")
      else if strContainsChar s '/' then getStepSource steps s
      else
        match List.lookup s inputs with
        | none => Except.error (Err.wfconn ("No such WF input " ++ s))
        | some p => Except.ok p
  | _ => Except.error (Err.wfconn "No such WF input <non-scalar source>")

/-- Embeds the innermost loop of Workflow list_connections (workflow.py
lines 276-283 and 292-298): each individual source is resolved; success
appends a Connection, a WFConnectionError appends a problem string built
by fmt, and any other exception propagates. -/
def processSources (inputs : List (String × Port)) (steps : List (String × Step))
    (sink : Port) (ln : Option (Nat × Nat)) (fmt : String → String) (srcs : List Yv)
    (acc : List Connection × List String) :
    Except Err (List Connection × List String) :=
  srcs.foldlM (fun acc2 src =>
    match getSource inputs steps src with
    | Except.ok source => Except.ok (acc2.1 ++ [Connection.mk source sink ln], acc2.2)
    | Except.error (Err.wfconn e) => Except.ok (acc2.1, acc2.2 ++ [fmt e])
    | Except.error (Err.py e) => Except.error (Err.py e)) acc

/-- Embeds the full-form source branch of list_connections (workflow.py
lines 265-271): a map or non-plain list node with a source field yields
that field with the node line range, a node without one is a default
value and is skipped. -/
def sourceForm (inputs : List (String × Port)) (steps : List (String × Step))
    (sink : Port) (fmt : String → String) (pd : Yv)
    (acc : List Connection × List String) :
    Except Err (List Connection × List String) := do
  let hasSrc ← yvContains pd "source"
  if hasSrc then do
    let port_src ← getItem pd "source"
    processSources inputs steps sink (lineOf pd) fmt (iter_scalar_or_list port_src) acc
  else Except.ok acc

/-- Embeds the connections-into-steps pass of Workflow list_connections
(workflow.py lines 247-283): a non-map step body records an invalid-step
problem; an unknown sink id records a no-such-sink problem; a scalar or
plain-list source specification is the shorthand form with the line range
of the whole in node; a map or non-plain-list specification is the full
form; anything else records an unparseable-source problem. -/
def listConnectionsSteps (cwl_dict : Yv) (inputs : List (String × Port))
    (steps : List (String × Step)) (acc0 : List Connection × List String) :
    Except Err (List Connection × List String) := do
  let stepsSec ← dictGetD cwl_dict "steps"
  let stepPairs ← iter_lom stepsSec
  stepPairs.foldlM (fun acc kv =>
    match kv.2 with
    | Yv.vmap _ _ _ => do
        let this_step ←
          match List.lookup kv.1 steps with
          | some s => Except.ok s
          | none => Except.error (Err.py ("KeyError: " ++ kv.1))
        let inSec ← dictGetD kv.2 "in"
        let inPairs ← iter_lom inSec
        inPairs.foldlM (fun acc2 skv =>
          match List.lookup skv.1 this_step.available_sinks with
          | none => Except.ok (acc2.1,
              acc2.2 ++ ["No such sink: " ++ this_step.id ++ "." ++ skv.1])
          | some sink =>
            let fmt := fun e =>
              Step.reprStr this_step ++ "." ++ skv.1 ++ ": " ++ e
            match skv.2 with
            | Yv.vstr s =>
                processSources inputs steps sink (lineOf inSec) fmt
                  (iter_scalar_or_list (Yv.vstr s)) acc2
            | Yv.vlist items true s e =>
                processSources inputs steps sink (lineOf inSec) fmt
                  (iter_scalar_or_list (Yv.vlist items true s e)) acc2
            | Yv.vmap es s e => sourceForm inputs steps sink fmt (Yv.vmap es s e) acc2
            | Yv.vlist items false s e =>
                sourceForm inputs steps sink fmt (Yv.vlist items false s e) acc2
            | Yv.vnull => Except.ok (acc2.1,
                acc2.2 ++ ["Can" ++ pyQuote ++ "t parse source for " ++
                           Step.reprStr this_step ++ "." ++ skv.1])) acc
    | _ => Except.ok (acc.1, acc.2 ++ ["Invalid step: " ++ kv.1])) acc0

/-- Embeds the connections-to-workflow-outputs pass of Workflow
list_connections (workflow.py lines 285-298): for each output entry with
an outputSource field every named source is resolved, successes append a
Connection carrying the output node line range and WFConnectionErrors
append a problem string scoped to the output port id. -/
def listConnectionsOutputs (cwl_dict : Yv) (inputs : List (String × Port))
    (outputs : List (String × Port)) (steps : List (String × Step))
    (acc0 : List Connection × List String) :
    Except Err (List Connection × List String) := do
  let outSec ← dictGetD cwl_dict "outputs"
  let outPairs ← iter_lom outSec
  outPairs.foldlM (fun acc kv => do
    let sink ←
      match List.lookup kv.1 outputs with
      | some p => Except.ok p
      | none => Except.error (Err.py ("KeyError: " ++ kv.1))
    let hasOS ← yvContains kv.2 "outputSource"
    if hasOS then do
      let os ← getItem kv.2 "outputSource"
      processSources inputs steps sink (lineOf kv.2)
        (fun e => sink.port_id ++ ": " ++ e) (iter_scalar_or_list os) acc
    else Except.ok acc) acc0

/-- The five required top-level sections (workflow.py line 177). -/
def requiredSections : List String :=
  ["cwlVersion", "class", "inputs", "outputs", "steps"]

/-- Embeds the required-section check of Workflow init (workflow.py lines
177-184): a missing section is recorded as a quoted-name problem string,
and the line ranges of the inputs and outputs sections are recorded. -/
def checkRequiredSections (cwl_dict : Yv) :
    Except Err (List String × List (String × (Nat × Nat))) :=
  requiredSections.foldlM (fun acc sec => do
    let mem ← yvContains cwl_dict sec
    if !mem then
      Except.ok (acc.1 ++ [pyQuote ++ sec ++ pyQuote ++ " missing"], acc.2)
    else if sec == "inputs" || sec == "outputs" then do
      let v ← getItem cwl_dict sec
      match lineOf v with
      | some l => Except.ok (acc.1, acc.2 ++ [(sec, l)])
      | none => Except.error (Err.py "AttributeError: object has no attribute start_line")
    else Except.ok acc) ([], [])

/-- Embeds the Workflow constructor (workflow.py lines 169-196): required
sections are checked, the input and output Port maps are parsed, a Step is
built per steps entry (its line range coming from the entry node), and the
two connection-derivation passes run, every pass appending to the shared
problem list. The result is an Except: Except.error models a Python
exception escaping the constructor. -/
def mkWorkflow (fs : String → Option Yv) (cwl_doc : CwlDoc) : Except Err Workflow := do
  let cwl_dict := cwl_doc.cwl_dict
  let secInfo ← checkRequiredSections cwl_dict
  let inputs ← parse_ports (← dictGetD cwl_dict "inputs")
  let outputs ← parse_ports (← dictGetD cwl_dict "outputs")
  let stepPairs ← iter_lom (← dictGetD cwl_dict "steps")
  let stepsAndProbs ← stepPairs.foldlM (fun acc kv => do
      match lineOf kv.2 with
      | none => Except.error (Err.py "AttributeError: object has no attribute start_line")
      | some ln => do
          let r ← Step.from_doc fs cwl_doc kv.1 ln
          Except.ok (acc.1 ++ [(kv.1, r.1)], acc.2 ++ r.2))
    (([] : List (String × Step)), ([] : List String))
  let acc1 ← listConnectionsSteps cwl_dict inputs stepsAndProbs.1 ([], [])
  let acc2 ← listConnectionsOutputs cwl_dict inputs outputs stepsAndProbs.1 acc1
  Except.ok { inputs := inputs, outputs := outputs, steps := stepsAndProbs.1,
              connections := acc2.1,
              problems_with_wf := secInfo.1 ++ stepsAndProbs.2 ++ acc2.2,
              section_lines := secInfo.2 }

/-- Embeds class CommandLine of commandwidget.py (lines 53-81): the field
text, the history list (seeded with one empty entry) and the history
cursor. The cursor is an integer because the Python code lets it move
below zero and past the end before clamping. -/
structure CommandLine where
  history : List String
  history_n : Int
  text : String
deriving DecidableEq

/-- A fresh command line: history contains one empty entry, cursor 0,
empty field (commandwidget.py lines 55-58). -/
def CommandLine.fresh : CommandLine :=
  { history := [""], history_n := 0, text := "" }

/-- Embeds the epilogue of keyPressEvent (commandwidget.py lines 74-75):
when the adjusted cursor is a valid index the field text is set to that
history entry. -/
def CommandLine.showEntry (s : CommandLine) : CommandLine :=
  if -1 < s.history_n && s.history_n < (s.history.length : Int) then
    match s.history.get? s.history_n.toNat with
    | some t => { s with text := t }
    | none => s
  else s

/-- Embeds the up-key branch of keyPressEvent (commandwidget.py lines
65-67): decrement the cursor, wrapping from below zero to the last
entry. -/
def CommandLine.keyUp (s : CommandLine) : CommandLine :=
  let n := s.history_n - 1
  let n := if n < 0 then (s.history.length : Int) - 1 else n
  CommandLine.showEntry { s with history_n := n }

/-- Embeds the down-key branch of keyPressEvent (commandwidget.py lines
68-70): increment the cursor, wrapping from past the end to zero. -/
def CommandLine.keyDown (s : CommandLine) : CommandLine :=
  let n := s.history_n + 1
  let n := if n > (s.history.length : Int) - 1 then 0 else n
  CommandLine.showEntry { s with history_n := n }

/-- Embeds submitting a line: the user puts the line into the field and
presses return. CommandLine command_entered (commandwidget.py lines
77-81) appends the text to the history when absent and resets the cursor
to one past the last entry; the hosting CommandWidget then clears the
field (commandwidget.py line 153). -/
def CommandLine.submit (s : CommandLine) (line : String) : CommandLine :=
  let h := if (s.history.contains line) then s.history else s.history ++ [line]
  { history := h, history_n := (h.length : Int), text := "" }

/-- A console command handler: positional string arguments to response
text, Except.error modelling a raised Python exception rendered through
str. -/
abbrev Handler := List String → Except String String

/-- Modelled from the spec (section 4.7): shell-style word splitting as
performed by shlex.split - whitespace separates tokens, a quoted span
(double or single quote) is part of one token, and an unclosed quote
raises ValueError (the shlex module is an external dependency of the
repository). The accumulator carries the open quote character, the
current token (reversed) and the finished tokens (reversed). -/
def shlexGo : List Char → Option Char → Option (List Char) → List String →
    Except String (List String)
  | [], some _, _, _ => Except.error "ValueError: No closing quotation"
  | [], none, none, acc => Except.ok acc.reverse
  | [], none, some tok, acc => Except.ok (String.mk tok.reverse :: acc).reverse
  | c :: cs, some q, tok, acc =>
      if c == q then shlexGo cs none (some (tok.getD [])) acc
      else shlexGo cs (some q) (some (c :: tok.getD [])) acc
  | c :: cs, none, tok, acc =>
      if c == ' ' || c == '\t' || c == '\n' then
        match tok with
        | some t => shlexGo cs none none (String.mk t.reverse :: acc)
        | none => shlexGo cs none none acc
      else if c == '"' || c == Char.ofNat 39 then
        shlexGo cs (some c) (some (tok.getD [])) acc
      else shlexGo cs none (some (c :: tok.getD [])) acc

/-- Shell-style word splitting of a command line (see shlexGo). -/
def shlexSplit (s : String) : Except String (List String) :=
  shlexGo s.data none none []

/-- Embeds CommandWidget command_entered (commandwidget.py lines 140-154).
The splitting and the unpacking of the first token happen outside the try
block, so a ValueError from either escapes the slot (Except.error); a
known command has its handler called with the remaining tokens, any fault
from the handler being rendered as a command-error response; an unknown
first token yields the unknown-command response. -/
def commandEntered (dispatch : List (String × Handler)) (cmd_line : String) :
    Except String String :=
  match shlexSplit cmd_line with
  | Except.error e => Except.error e
  | Except.ok [] =>
      Except.error "ValueError: not enough values to unpack (expected at least 1, got 0)"
  | Except.ok (cmd :: arguments) =>
      match List.lookup cmd dispatch with
      | some h =>
          match h arguments with
          | Except.ok r => Except.ok r
          | Except.error e => Except.ok ("Command error:\n" ++ e)
      | none => Except.ok ("Unknown command: " ++ cmd)

/-- The response the spec describes for a dispatched command line (section
4.7): the handler response, the command-error rendering of a handler
fault, or the unknown-command message. Stated from the spec for
comparison with commandEntered. -/
def specResponse (dispatch : List (String × Handler)) (cmd : String)
    (args : List String) : String :=
  match List.lookup cmd dispatch with
  | some h =>
      match h args with
      | Except.ok r => r
      | Except.error e => "Command error:\n" ++ e
  | none => "Unknown command: " ++ cmd

/-- Embeds the only_clt decorator of commandwidget.py (lines 35-41): the
wrapped handler runs only when the current process type is
CommandLineTool, otherwise the gating message is returned and nothing is
emitted. The second component of a result is the list of proposed_edit
signal payloads the call emits (the payload abstracted to the inserted
entry text, built by insert_into_lom of the document wrapper). -/
def only_clt (process_type : String) (f : List String → String × List String)
    (args : List String) : String × List String :=
  if process_type == "CommandLineTool" then f args
  else ("Can only do this on CommandLineTool: This is " ++ process_type, [])

/-- Embeds the body of docker_scaffold (commandwidget.py lines 194-207):
exactly one argument builds and emits the DockerRequirement edit and
reports success; any other count reports the incorrect-argument message
and emits nothing. -/
def docker_scaffold_body (args : List String) : String × List String :=
  match args with
  | [docker_image] => ("Added DockerRequirement", ["dockerPull: " ++ docker_image ++ "\n"])
  | _ => ("Incorrect number of arguments", [])

/-- The docker command as dispatched (commandwidget.py lines 190-207):
docker_scaffold wrapped by only_clt, so the process-type gate runs before
the argument-count check. -/
def docker_cmd (process_type : String) (args : List String) : String × List String :=
  only_clt process_type docker_scaffold_body args

/-- Modelled from the spec (section 4.4, multidocumentmanager.py is not
part of the sources here): MultiDocumentManager open_window returns the
view widget for a (resolved parent path, inline path) key, the same
widget whenever the same key is passed. The widget is identified with
its key. -/
def open_window (parent_path : String) (inline_path : List String) :
    String × List String :=
  (parent_path, inline_path)

/-- The tab widget state of the main shell: the hosted view widgets with
their tab titles, in tab order, and the current tab index. -/
structure TabShell where
  tabs : List ((String × List String) × String)
  current : Option Nat
deriving DecidableEq

/-- Index of the last tab hosting the given widget (the scan loop of
open_document focuses every matching tab in order, so the last match
wins). -/
def lastTabIndexOf (tabs : List ((String × List String) × String))
    (bw : String × List String) : Option Nat :=
  (List.range tabs.length).foldl (fun acc i =>
    match tabs.get? i with
    | some t => if t.1 == bw then some i else acc
    | none => acc) none

/-- Embeds BentenMainWidget open_document (bentenmainwidget.py lines
42-56). The for loop focuses each tab already hosting the widget; the
loop body contains no break, so the else suite of the for statement runs
unconditionally afterwards: it computes the tab title (the dot-joined
inline path, or root for an empty one), connects the widget signals
again, appends a new tab hosting the widget and focuses it. -/
def open_document (st : TabShell) (parent_path : String)
    (inline_path : List String) : TabShell :=
  let bw := open_window parent_path inline_path
  let st1 :=
    match lastTabIndexOf st.tabs bw with
    | some i => { st with current := some i }
    | none => st
  let tab_name := if inline_path.isEmpty then "root"
                  else String.intercalate "." inline_path
  let tabs2 := st1.tabs ++ [(bw, tab_name)]
  { tabs := tabs2, current := some (tabs2.length - 1) }

/-- The run target a step resolves to when resolution succeeds: the
parsed file content for a string run field, the embedded node otherwise
(a selector over the two success paths of Step.from_doc, used to state
properties of resolved steps). -/
def resolvedTarget (fs : String → Option Yv) (parentDir : String) (rv : Yv) : Option Yv :=
  match rv with
  | Yv.vstr p => fs (resolvePath parentDir p)
  | _ => some rv

/-- The map form of a list-or-map section built from base data: every
entry is a map of the given fields keyed by the given id. -/
def lomMapForm (base : List (String × (List (String × Yv) × Nat × Nat)))
    (s e : Nat) : Yv :=
  Yv.vmap (base.map fun b => (b.1, Yv.vmap b.2.1 b.2.2.1 b.2.2.2)) s e

/-- The sequence form of the same content: every element is the map of
fields with its id injected as an id field. -/
def lomListForm (base : List (String × (List (String × Yv) × Nat × Nat)))
    (s e : Nat) : Yv :=
  Yv.vlist (base.map fun b => Yv.vmap (("id", Yv.vstr b.1) :: b.2.1) b.2.2.1 b.2.2.2)
    false s e

/-- A one-command dispatch table (the help entry of the console), used to
exercise commandEntered on concrete lines. -/
def sampleDispatch : List (String × Handler) :=
  [("help", fun _ => Except.ok "help: Print help")]

/-- A syntactically valid workflow document whose single output lists the
source string a/b/c (two slashes). -/
def c1doc : CwlDoc :=
  { cwl_dict := Yv.vmap [
      ("cwlVersion", Yv.vstr "v1.0"),
      ("class", Yv.vstr "Workflow"),
      ("inputs", Yv.vmap [] 2 2),
      ("outputs", Yv.vmap [("o1", Yv.vmap [("outputSource", Yv.vstr "a/b/c")] 4 5)] 3 5),
      ("steps", Yv.vmap [] 6 6)] 0 6,
    path := "/wf.cwl", parentDir := "", inline_path := [] }

/-- Workflow inputs with a single port in1, for exercising source
resolution. -/
def c4inputs : List (String × Port) := [("in1", Port.mk none "in1" none)]

/-- A document whose single step has an inline run target that is an
empty map (no inputs section, no outputs section). -/
def c10doc : CwlDoc :=
  { cwl_dict := Yv.vmap
      [("steps", Yv.vmap [("s1", Yv.vmap [("run", Yv.vmap [] 5 6)] 1 2)] 0 6)] 0 6,
    path := "/wf.cwl", parentDir := "", inline_path := [] }

/-- The step c10doc parses to. -/
def c10step : Step :=
  { id := "s1", line := (1, 2), available_sinks := [], available_sources := [],
    sub_workflow := SubWorkflow.inlineSub "/wf.cwl" ["s1"] }

/-- A lookup hit among the pairs means the key test of the any-based
membership succeeds (helper relating List.lookup to List.any). -/
theorem lookup_imp_any {β : Type} (k : String) (v : β) :
    ∀ (es : List (String × β)), List.lookup k es = some v →
      es.any (fun kv => kv.1 == k) = true := by
  intro es
  induction es with
  | nil => intro h; simp [List.lookup] at h
  | cons hd t ih =>
    intro h
    rcases hd with ⟨hk, hv⟩
    simp only [List.lookup] at h
    simp only [List.any_cons, Bool.or_eq_true]
    by_cases hkk : k = hk
    · left; simp [hkk]
    · right
      apply ih
      have hb : (k == hk) = false := beq_eq_false_iff_ne.mpr hkk
      rw [hb] at h
      exact h

/-- C9: two Port instances are equal exactly when their owning step
identifier and their port identifier agree; the line range never enters
the comparison, so ports differing only in line range compare equal and
ports differing in owner or port id compare unequal. -/
theorem c9_port_equality (a b : Port) :
    Port.eq a b = true ↔ a.node_id = b.node_id ∧ a.port_id = b.port_id := by
  simp [Port.eq, Bool.and_eq_true, beq_iff_eq]

/-- C7: from a fresh command line (history contains the one empty entry,
cursor 0), after submitting foo then bar, two up-keys put foo in the
field, one down-key from there shows bar, and one more down-key wraps to
the empty initial history entry. -/
theorem c7_history_navigation :
    ((((CommandLine.fresh.submit "foo").submit "bar").keyUp.keyUp).text = "foo") ∧
    ((((CommandLine.fresh.submit "foo").submit "bar").keyUp.keyUp).keyDown.text = "bar") ∧
    ((((CommandLine.fresh.submit "foo").submit "bar").keyUp.keyUp).keyDown.keyDown.text = "") := by
  refine ⟨rfl, rfl, rfl⟩

/-- C2 evaluation: opening the same (parent path, inline path) key twice
leaves two tabs hosting the same widget - the for statement in
open_document has no break, so its else suite (which adds a tab) runs on
every call, including when a tab for the key already exists. -/
theorem c2_duplicate_tab :
    (open_document (open_document (TabShell.mk [] none) "/wf.cwl" []) "/wf.cwl" []).tabs =
      [(("/wf.cwl", []), "root"), (("/wf.cwl", []), "root")] ∧
    (open_document (open_document (TabShell.mk [] none) "/wf.cwl" []) "/wf.cwl" []).tabs.length = 2 := by
  refine ⟨rfl, rfl⟩

/-- C1 evaluation: on a syntactically valid workflow document whose
output names the source a/b/c, constructing the Workflow raises an
uncaught ValueError from unpacking the slash-split source string (only
WFConnectionError is caught by the derivation loops), so the constructor
does not return a graph and problem list. -/
theorem c1_fault_escapes :
    mkWorkflow (fun _ => none) c1doc =
      Except.error (Err.py "ValueError: too many values to unpack (expected 2)") := by
  rfl

/-- C6 counterexample: invoking docker with zero arguments while the
current process type is Workflow responds with the process-type gating
message, not with the incorrect-argument message - the only_clt wrapper
checks the process type before the argument count. -/
theorem c6_counterexample :
    docker_cmd "Workflow" [] =
      ("Can only do this on CommandLineTool: This is Workflow", []) ∧
    ("Can only do this on CommandLineTool: This is Workflow" ≠
      "Incorrect number of arguments") := by
  refine ⟨rfl, by decide⟩

/-- C6 amended: when the current process type is CommandLineTool, invoking
docker with zero or two arguments responds exactly with the
incorrect-argument message and emits no proposed-edit signal. -/
theorem c6_arg_count (args : List String) (h : args.length = 0 ∨ args.length = 2) :
    docker_cmd "CommandLineTool" args = ("Incorrect number of arguments", []) := by
  rcases args with _ | ⟨a, _ | ⟨b, _ | ⟨c, t⟩⟩⟩
  · rfl
  · rcases h with h | h <;> simp at h
  · rfl
  · rcases h with h | h <;> simp at h

/-- C8 counterexample: the same content written as a mapping keyed by id
and as a sequence of objects carrying an id field does not iterate to
identical (id, value) pairs - the ids agree, but the sequence form
yields the whole element (id field included) as the value, while the map
form yields the id-stripped value. -/
theorem c8_counterexample :
    iter_lom (Yv.vmap [("a", Yv.vmap [] 1 1)] 0 1) =
      Except.ok [("a", Yv.vmap [] 1 1)] ∧
    iter_lom (Yv.vlist [Yv.vmap [("id", Yv.vstr "a")] 1 1] false 0 1) =
      Except.ok [("a", Yv.vmap [("id", Yv.vstr "a")] 1 1)] ∧
    ([("a", Yv.vmap [] 1 1)] : List (String × Yv)) ≠
      [("a", Yv.vmap [("id", Yv.vstr "a")] 1 1)] := by
  refine ⟨rfl, rfl, ?_⟩
  intro h
  simp [Yv.vmap.injEq] at h

/-- C8 amended: a section written as a mapping keyed by id and the same
content written as a sequence of objects each carrying an id field yield
pairs with identical ordered ids (the values differ in that the sequence
form carries the id field inside each value). -/
theorem c8_lom_ids_agree (base : List (String × (List (String × Yv) × Nat × Nat)))
    (s e s2 e2 : Nat) :
    (iter_lom (lomMapForm base s e)).map (fun l => l.map Prod.fst) =
      Except.ok (base.map Prod.fst) ∧
    (iter_lom (lomListForm base s2 e2)).map (fun l => l.map Prod.fst) =
      Except.ok (base.map Prod.fst) := by
  constructor
  · simp [lomMapForm, iter_lom, Except.map, List.map_map]
  · simp only [lomListForm, iter_lom]
    induction base with
    | nil => rfl
    | cons b t ih =>
      simp only [List.map_cons, lomElems, lomElemId, List.lookup, beq_self_eq_true]
      cases hrest : lomElems (t.map fun b => Yv.vmap (("id", Yv.vstr b.1) :: b.2.1) b.2.2.1 b.2.2.2) with
      | ok l =>
          rw [hrest] at ih
          simp [Except.map, Bind.bind, Except.bind, hrest] at ih ⊢
          exact ih
      | error er =>
          rw [hrest] at ih
          simp [Except.map, Bind.bind, Except.bind, hrest] at ih

/-- C5: a step whose run field is a string path resolving to a
nonexistent file parses to a Step whose sub-workflow is the Invalid
variant with empty sink and source maps, and appends exactly one problem
string, which spells out the original unresolved path text and the
resolved path as a file URI. -/
theorem c5_missing_external_subworkflow (fs : String → Option Yv) (doc : CwlDoc)
    (step_id p : String) (line : Nat × Nat) (sn : Yv)
    (es : List (String × Yv)) (l1 l2 : Nat)
    (h1 : getItem doc.cwl_dict "steps" = Except.ok sn)
    (h2 : getItem sn step_id = Except.ok (Yv.vmap es l1 l2))
    (h3 : List.lookup "run" es = some (Yv.vstr p))
    (h4 : fs (resolvePath doc.parentDir p) = none) :
    Step.from_doc fs doc step_id line =
      Except.ok ({ id := step_id, line := line, available_sinks := [],
                   available_sources := [], sub_workflow := SubWorkflow.invalidSub },
                 ["Could not find sub workflow: " ++ p ++
                  " (resolved to " ++ asUri (resolvePath doc.parentDir p) ++ ")"]) := by
  have hany := lookup_imp_any "run" (Yv.vstr p) es h3
  simp only [Step.from_doc, Bind.bind, Except.bind, h1, h2]
  simp only [yvContains, hany, Bool.not_true, getItem, h3, h4]
  have hsi : stepInterface step_id (Yv.vmap [] 0 0) = Except.ok ([], []) := rfl
  rw [hsi]
  simp

/-- C5 witness: a concrete document whose step s1 runs tool.cwl with no
file present - from_doc yields the Invalid step with the single problem
string naming tool.cwl and the file URI of the resolved path. -/
theorem c5_witness :
    getItem (Yv.vmap [("steps", Yv.vmap [("s1", Yv.vmap [("run", Yv.vstr "tool.cwl")] 1 2)] 0 2)] 0 2) "steps" =
      Except.ok (Yv.vmap [("s1", Yv.vmap [("run", Yv.vstr "tool.cwl")] 1 2)] 0 2) ∧
    Step.from_doc (fun _ => none)
      (CwlDoc.mk (Yv.vmap [("steps", Yv.vmap [("s1", Yv.vmap [("run", Yv.vstr "tool.cwl")] 1 2)] 0 2)] 0 2)
        "/base/wf.cwl" "/base" []) "s1" (1, 2) =
      Except.ok ({ id := "s1", line := (1, 2), available_sinks := [],
                   available_sources := [], sub_workflow := SubWorkflow.invalidSub },
                 ["Could not find sub workflow: " ++ "tool.cwl" ++
                  " (resolved to " ++ asUri (resolvePath "/base" "tool.cwl") ++ ")"]) := by
  refine ⟨rfl, ?_⟩
  exact c5_missing_external_subworkflow (fun _ => none)
    (CwlDoc.mk (Yv.vmap [("steps", Yv.vmap [("s1", Yv.vmap [("run", Yv.vstr "tool.cwl")] 1 2)] 0 2)] 0 2)
      "/base/wf.cwl" "/base" []) "s1" "tool.cwl" (1, 2)
    (Yv.vmap [("s1", Yv.vmap [("run", Yv.vstr "tool.cwl")] 1 2)] 0 2)
    [("run", Yv.vstr "tool.cwl")] 1 2 rfl rfl rfl rfl

/-- Helper: when the resolved sub-process has no inputs key, a successful
stepInterface yields an empty sink list (the inputs lookup falls back to
the empty dict). -/
theorem stepInterface_inputs_empty (sid : String) (sps : List (String × Yv)) (sl sle : Nat)
    (hin : List.lookup "inputs" sps = none) :
    ∀ ports, stepInterface sid (Yv.vmap sps sl sle) = Except.ok ports → ports.1 = [] := by
  intro ports h
  simp only [stepInterface, Bind.bind, Except.bind, dictGetD, hin, Option.getD_none] at h
  have h0 : iter_lom (Yv.vmap [] 0 0) = Except.ok [] := rfl
  rw [h0] at h
  cases hs : iter_lom ((List.lookup "outputs" sps).getD (Yv.vmap [] 0 0)) with
  | error e => rw [hs] at h; simp at h
  | ok l =>
      rw [hs] at h
      simp only [List.map_nil, Except.ok.injEq] at h
      rw [← h]

/-- Helper: when the resolved sub-process has no outputs key, a
successful stepInterface yields an empty source list. -/
theorem stepInterface_outputs_empty (sid : String) (sps : List (String × Yv)) (sl sle : Nat)
    (hout : List.lookup "outputs" sps = none) :
    ∀ ports, stepInterface sid (Yv.vmap sps sl sle) = Except.ok ports → ports.2 = [] := by
  intro ports h
  simp only [stepInterface, Bind.bind, Except.bind, dictGetD, hout, Option.getD_none] at h
  cases hs : iter_lom ((List.lookup "inputs" sps).getD (Yv.vmap [] 0 0)) with
  | error e => rw [hs] at h; simp at h
  | ok l =>
      rw [hs] at h
      have h0 : iter_lom (Yv.vmap [] 0 0) = Except.ok [] := rfl
      rw [h0] at h
      simp only [List.map_nil, Except.ok.injEq] at h
      rw [← h]

/-- Helper: under the hypotheses that the step body is a map whose run
field resolves to a map sub-process, Step.from_doc reduces to the
stepInterface result packaged with some sub-workflow tag and an empty
problem list. -/
theorem from_doc_resolved_shape (fs : String → Option Yv) (doc : CwlDoc)
    (step_id : String) (line : Nat × Nat) (sn rv : Yv)
    (es sps : List (String × Yv)) (l1 l2 sl sle : Nat)
    (h1 : getItem doc.cwl_dict "steps" = Except.ok sn)
    (h2 : getItem sn step_id = Except.ok (Yv.vmap es l1 l2))
    (h3 : List.lookup "run" es = some rv)
    (h4 : resolvedTarget fs doc.parentDir rv = some (Yv.vmap sps sl sle)) :
    ∃ sub, Step.from_doc fs doc step_id line =
      (stepInterface step_id (Yv.vmap sps sl sle)).map
        (fun ports => ({ id := step_id, line := line, available_sinks := ports.1,
                         available_sources := ports.2, sub_workflow := sub },
                       ([] : List String))) := by
  have hany := lookup_imp_any "run" rv es h3
  rcases rv with _ | p | ⟨a, b, c⟩ | ⟨items, pl, b, c⟩
  · simp [resolvedTarget] at h4
  · simp only [resolvedTarget] at h4
    refine ⟨SubWorkflow.externalSub (resolvePath doc.parentDir p), ?_⟩
    simp only [Step.from_doc, Bind.bind, Except.bind, h1, h2]
    simp only [yvContains, hany, Bool.not_true, getItem, h3, h4]
    cases hs : stepInterface step_id (Yv.vmap sps sl sle) <;> simp [hs, Except.map]
  · simp only [resolvedTarget, Option.some.injEq, Yv.vmap.injEq] at h4
    obtain ⟨ha, hb, hc⟩ := h4
    subst ha; subst hb; subst hc
    refine ⟨SubWorkflow.inlineSub doc.path (doc.inline_path ++ [step_id]), ?_⟩
    simp only [Step.from_doc, Bind.bind, Except.bind, h1, h2]
    simp only [yvContains, hany, Bool.not_true, getItem, h3]
    cases hs : stepInterface step_id (Yv.vmap a b c) <;> simp [hs, Except.map]
  · simp [resolvedTarget] at h4

/-- C10: for a step whose run field resolves to a sub-process (inline, or
an external file that exists and parses) lacking an inputs section or an
outputs section, a Step yielded by from_doc has an empty sink map or an
empty source map respectively, and no problem string is recorded. -/
theorem c10_missing_interface_sections (fs : String → Option Yv) (doc : CwlDoc)
    (step_id : String) (line : Nat × Nat) (sn rv : Yv)
    (es sps : List (String × Yv)) (l1 l2 sl sle : Nat)
    (h1 : getItem doc.cwl_dict "steps" = Except.ok sn)
    (h2 : getItem sn step_id = Except.ok (Yv.vmap es l1 l2))
    (h3 : List.lookup "run" es = some rv)
    (h4 : resolvedTarget fs doc.parentDir rv = some (Yv.vmap sps sl sle)) :
    (List.lookup "inputs" sps = none →
      ∀ st probs, Step.from_doc fs doc step_id line = Except.ok (st, probs) →
        st.available_sinks = [] ∧ probs = []) ∧
    (List.lookup "outputs" sps = none →
      ∀ st probs, Step.from_doc fs doc step_id line = Except.ok (st, probs) →
        st.available_sources = [] ∧ probs = []) := by
  obtain ⟨sub, hred⟩ :=
    from_doc_resolved_shape fs doc step_id line sn rv es sps l1 l2 sl sle h1 h2 h3 h4
  constructor
  · intro hin st probs heq
    rw [hred] at heq
    cases hs : stepInterface step_id (Yv.vmap sps sl sle) with
    | error e => rw [hs] at heq; simp [Except.map] at heq
    | ok ports =>
        rw [hs] at heq
        simp only [Except.map, Except.ok.injEq, Prod.mk.injEq] at heq
        obtain ⟨hst, hpr⟩ := heq
        have hp1 := stepInterface_inputs_empty step_id sps sl sle hin ports hs
        subst hst
        exact ⟨hp1, hpr.symm⟩
  · intro hout st probs heq
    rw [hred] at heq
    cases hs : stepInterface step_id (Yv.vmap sps sl sle) with
    | error e => rw [hs] at heq; simp [Except.map] at heq
    | ok ports =>
        rw [hs] at heq
        simp only [Except.map, Except.ok.injEq, Prod.mk.injEq] at heq
        obtain ⟨hst, hpr⟩ := heq
        have hp2 := stepInterface_outputs_empty step_id sps sl sle hout ports hs
        subst hst
        exact ⟨hp2, hpr.symm⟩

/-- C10 witness: the concrete document c10doc (step s1 with an inline
empty-map run target) parses to the step c10step with empty sink and
source maps and an empty appended problem list. -/
theorem c10_witness :
    Step.from_doc (fun _ => none) c10doc "s1" (1, 2) = Except.ok (c10step, []) ∧
    c10step.available_sinks = [] ∧ c10step.available_sources = [] := by
  have h := c10_missing_interface_sections (fun _ => none) c10doc "s1" (1, 2)
    (Yv.vmap [("s1", Yv.vmap [("run", Yv.vmap [] 5 6)] 1 2)] 0 6)
    (Yv.vmap [] 5 6) [("run", Yv.vmap [] 5 6)] [] 1 2 5 6 rfl rfl rfl rfl
  exact ⟨rfl, (h.1 rfl c10step [] rfl).1, (h.2 rfl c10step [] rfl).1⟩

/-- C4: for a workflow output whose outputSource lists two upstream
sources of which exactly one resolves (the other failing with a
connection-resolution error), the outputs pass produces exactly one
Connection, for the resolving source, and appends exactly one problem
string, for the failing one - the failure does not suppress the valid
connection. -/
theorem c4_one_bad_source_isolated
    (inputs : List (String × Port)) (steps : List (String × Step))
    (oid : String) (sink p : Port) (e : String) (s1 s2 : Yv)
    (q1 q2 ls le lo1 lo2 : Nat)
    (h : (getSource inputs steps s1 = Except.ok p ∧
          getSource inputs steps s2 = Except.error (Err.wfconn e)) ∨
         (getSource inputs steps s1 = Except.error (Err.wfconn e) ∧
          getSource inputs steps s2 = Except.ok p)) :
    listConnectionsOutputs
      (Yv.vmap [("outputs",
         Yv.vmap [(oid, Yv.vmap [("outputSource", Yv.vlist [s1, s2] true q1 q2)] ls le)]
           lo1 lo2)] 0 9)
      inputs [(oid, sink)] steps ([], []) =
      Except.ok ([Connection.mk p sink (some (ls, le))],
                 [sink.port_id ++ ": " ++ e]) := by
  rcases h with ⟨h1, h2⟩ | ⟨h1, h2⟩ <;>
    simp [listConnectionsOutputs, dictGetD, iter_lom, yvContains, getItem,
          iter_scalar_or_list, processSources, lineOf, List.foldlM,
          Bind.bind, Except.bind, Pure.pure, Except.pure, h1, h2]

/-- C4 witness: a concrete outputs pass with sources in1 (a workflow
input that exists) and nope (no such input): exactly one Connection and
exactly one problem string result. -/
theorem c4_witness :
    getSource c4inputs [] (Yv.vstr "in1") = Except.ok (Port.mk none "in1" none) ∧
    getSource c4inputs [] (Yv.vstr "nope") =
      Except.error (Err.wfconn "No such WF input nope") ∧
    listConnectionsOutputs
      (Yv.vmap [("outputs",
         Yv.vmap [("o1", Yv.vmap [("outputSource",
           Yv.vlist [Yv.vstr "in1", Yv.vstr "nope"] true 4 4)] 3 5)] 2 5)] 0 9)
      c4inputs [("o1", Port.mk none "o1" none)] [] ([], []) =
      Except.ok ([Connection.mk (Port.mk none "in1" none) (Port.mk none "o1" none) (some (3, 5))],
                 [(Port.mk none "o1" none).port_id ++ ": " ++ "No such WF input nope"]) := by
  refine ⟨rfl, rfl, ?_⟩
  exact c4_one_bad_source_isolated c4inputs [] "o1" (Port.mk none "o1" none)
    (Port.mk none "in1" none) "No such WF input nope" (Yv.vstr "in1") (Yv.vstr "nope")
    4 4 3 5 2 5 (Or.inl ⟨rfl, rfl⟩)

/-- C3 counterexample: submitting the empty command line makes the
command_entered slot raise - the Python statement unpacking the first
token of the split line runs before the try block and fails on an empty
token list, so the fault escapes and no response is produced. -/
theorem c3_counterexample :
    commandEntered sampleDispatch "" =
      Except.error "ValueError: not enough values to unpack (expected at least 1, got 0)" := by
  rfl

/-- C3 amended: for every command line whose shell-style splitting
succeeds and yields at least one token, submission produces a textual
response and no fault escapes: the response is the handler text, its
command-error rendering, or the unknown-command message, exactly the
response the spec describes. -/
theorem c3_split_ok_response (dispatch : List (String × Handler)) (line cmd : String)
    (args : List String) (h : shlexSplit line = Except.ok (cmd :: args)) :
    commandEntered dispatch line = Except.ok (specResponse dispatch cmd args) := by
  simp only [commandEntered, specResponse, h]
  cases hl : List.lookup cmd dispatch with
  | none => simp [hl]
  | some f => cases hf : f args <;> simp [hl, hf]

/-- C3 witness: the line help splits into one token and produces the
response the spec describes for it. -/
theorem c3_witness :
    shlexSplit "help" = Except.ok ["help"] ∧
    commandEntered sampleDispatch "help" =
      Except.ok (specResponse sampleDispatch "help" []) :=
  ⟨rfl, c3_split_ok_response sampleDispatch "help" "help" [] rfl⟩

/-- C6 witness: the docker command with zero arguments on a
CommandLineTool responds with the incorrect-argument message and emits
nothing. -/
theorem c6_witness :
    (([] : List String).length = 0 ∨ ([] : List String).length = 2) ∧
    docker_cmd "CommandLineTool" [] = ("Incorrect number of arguments", []) :=
  ⟨Or.inl rfl, c6_arg_count [] (Or.inl rfl)⟩
